import Mathlib

/-!
Verification development for the multi-tenant SaaS backend (Django-Tenant).

Shallow embedding of the application code under src/saas_backend/: the
tenant registry and registration flow (tenants/serializers.py,
tenants/views.py), the per-tenant domain models (core/models.py), the
tenant-scoped views (core/views.py), the registration serializers
(core/serializers.py), the post_save profile signal (core/signals.py) and
the background jobs (core/tasks.py).

Modelling conventions:
- Database rows are Lean structures; tables are lists of rows.
- A tenant schema is a named entry in an association list of the global
  database state; the connection's active schema is an explicit field.
- Machine time is modelled as integer day counts (the code only compares
  timestamps, never does arithmetic the claims depend on).
- Django queryset filters become list filters; the SQL semantics of a
  comparison against NULL (never true) is modelled explicitly.
- transaction.atomic is modelled by returning the caller's database rows
  unchanged when any step of the block fails; connection.set_tenant is a
  client-side switch that a rollback does not undo, so the active-schema
  field keeps the value the failed block left behind.
-/

namespace SaaS

/-- A Django auth User row (django.contrib.auth.models.User), restricted to
the fields the application reads. The username column carries a UNIQUE
constraint; the email column does not (stock Django auth user). -/
structure AuthUser where
  id : Nat
  username : String
  email : String
  is_staff : Bool
  is_superuser : Bool
  deriving DecidableEq

/-- core/models.py UserProfile: one-to-one with a user (so at most one row
per user id), role defaulting to the string member. -/
structure UserProfile where
  userId : Nat
  role : String
  phone : Option String
  department : Option String
  deriving DecidableEq

/-- core/models.py Project: owner foreign key and a many-to-many member set,
with default queryset ordering by created_at descending. -/
structure Project where
  id : Nat
  name : String
  status : String
  ownerId : Nat
  memberIds : List Nat
  createdAt : Int
  deriving DecidableEq

/-- core/models.py Task: status and priority are CharFields with enumerated
choices; assigned_to, due_date and completed_at are nullable. Default
queryset ordering is by created_at descending. -/
structure Task where
  id : Nat
  projectId : Nat
  title : String
  priority : String
  status : String
  assignedToId : Option Nat
  createdById : Nat
  dueDate : Option Int
  completedAt : Option Int
  createdAt : Int
  deriving DecidableEq

/-- The tables living inside one tenant schema. -/
structure TenantData where
  users : List AuthUser
  profiles : List UserProfile
  projects : List Project
  tasks : List Task
  deriving DecidableEq

def emptyTenant : TenantData := ⟨[], [], [], []⟩

/-- tenants/models.py Company (TenantMixin): schema_name carries the UNIQUE
constraint declared by django_tenants.models.TenantMixin. -/
structure Company where
  id : Nat
  name : String
  schema_name : String
  subscription_plan : String
  is_active : Bool
  deriving DecidableEq

/-- tenants/models.py Domain (DomainMixin): the domain column carries the
UNIQUE constraint declared by django_tenants.models.DomainMixin. -/
structure Domain where
  id : Nat
  domain : String
  tenantId : Nat
  is_primary : Bool
  deriving DecidableEq

/-- Global database state: public-schema tables, the map from schema name to
that tenant's tables, the connection's currently active schema, and a log of
outgoing mail (for the background jobs). -/
structure DBState where
  companies : List Company
  domains : List Domain
  tenants : List (String × TenantData)
  activeSchema : String
  sentEmails : List String
  deriving DecidableEq

/-- Look up the tables of a schema. A missing schema models the database
error django_tenants raises when the schema does not exist. -/
def tenantOf (s : DBState) (sc : String) : Option TenantData :=
  (s.tenants.find? (fun p => p.1 == sc)).map (fun p => p.2)

/-- Apply a mutation to the tables of one schema (no-op if the schema is
absent). -/
def modifySchema (s : DBState) (sc : String) (f : TenantData → TenantData) : DBState :=
  { s with tenants := s.tenants.map (fun p => if p.1 == sc then (p.1, f p.2) else p) }

/-- Overwrite the tables of one schema. -/
def setTenantData (s : DBState) (sc : String) (td : TenantData) : DBState :=
  modifySchema s sc (fun _ => td)

/-- django_tenants.utils.schema_context: switch the connection to the given
schema, run the block, and restore the previously active schema on exit. -/
def schema_context (sc : String) (f : DBState → DBState) (s : DBState) : DBState :=
  let saved := s.activeSchema
  let s2 := f { s with activeSchema := sc }
  { s2 with activeSchema := saved }

/-- User.objects.create_user followed by the post_save receiver
core/signals.py create_user_profile. Modelled from the spec: the receiver's
registration (the Django app configuration, which is not under src/) is
taken as connected, because the spec states that a profile is created
automatically whenever an identity is created inside a tenant namespace.
The insert fails on a duplicate username (UNIQUE constraint); the signal
then get-or-creates a profile with the default role member, but only when
the active schema is not public. -/
def create_user_with_signal (schema : String) (td : TenantData) (uid : Nat)
    (username email : String) (staff su : Bool) : Except String TenantData :=
  if td.users.any (fun u => u.username == username) then
    .error "UNIQUE constraint failed: auth_user.username"
  else
    let td1 : TenantData :=
      { td with users := td.users ++ [⟨uid, username, email, staff, su⟩] }
    let td2 : TenantData :=
      if schema ≠ "public" then
        if td1.profiles.any (fun p => p.userId == uid) then td1
        else { td1 with profiles := td1.profiles ++ [⟨uid, "member", none, none⟩] }
      else td1
    .ok td2

/-! ### Company registration (tenants/serializers.py CompanyRegistrationSerializer) -/

structure RegInput where
  company_name : String
  schema_name : String
  domain_url : String
  admin_username : String
  admin_email : String
  admin_password : String
  subscription_plan : String
  deriving DecidableEq

/-- Python str.lower (ASCII model), written over the character list so that
it evaluates by kernel reduction. -/
def pyLower (value : String) : String := ⟨value.data.map Char.toLower⟩

/-- Python str.isalnum over a character list: true when the list is nonempty
and every character is alphanumeric (ASCII model). -/
def pyIsAlnum (cs : List Char) : Bool := !cs.isEmpty && cs.all Char.isAlphanum

/-- Python value.replace with a one-character pattern and empty replacement
removes every occurrence of that character, modelled as a character filter. -/
def stripUnderscores (value : String) : List Char :=
  value.data.filter (fun c => c ≠ '_')

/-- CompanyRegistrationSerializer.validate_schema_name: reject an exact
duplicate, reject when the underscore-stripped value is not alphanumeric,
otherwise lowercase. -/
def validate_schema_name (s : DBState) (value : String) : Except String String :=
  if s.companies.any (fun c => c.schema_name == value) then
    .error "This schema name is already taken."
  else if !pyIsAlnum (stripUnderscores value) then
    .error "Schema name must contain only alphanumeric characters and underscores."
  else
    .ok (pyLower value)

/-- CompanyRegistrationSerializer.validate_domain_url: reject an exact
duplicate, otherwise lowercase. -/
def validate_domain_url (s : DBState) (value : String) : Except String String :=
  if s.domains.any (fun d => d.domain == value) then
    .error "This domain is already registered."
  else
    .ok (pyLower value)

/-- The body of the transaction.atomic block in
CompanyRegistrationSerializer.create: create the Company row (auto-creating
its schema), the primary Domain row, switch the connection to the tenant
schema, and create the admin user there. The state is returned even on
failure so the caller can model what a rollback does and does not undo. -/
def registerSteps (s : DBState) (inp : RegInput) (schemaL domainL : String)
    (cid did uid : Nat) : Except String Unit × DBState :=
  if s.companies.any (fun c => c.schema_name == schemaL) then
    (.error "UNIQUE constraint failed: tenants_company.schema_name", s)
  else
    let s1 : DBState := { s with
      companies := s.companies ++ [⟨cid, inp.company_name, schemaL, inp.subscription_plan, true⟩],
      tenants := s.tenants ++ [(schemaL, emptyTenant)] }
    if s1.domains.any (fun d => d.domain == domainL) then
      (.error "UNIQUE constraint failed: tenants_domain.domain", s1)
    else
      let s2 : DBState := { s1 with domains := s1.domains ++ [⟨did, domainL, cid, true⟩] }
      let s3 : DBState := { s2 with activeSchema := schemaL }
      match tenantOf s3 schemaL with
      | none => (.error "schema does not exist", s3)
      | some td =>
        match create_user_with_signal schemaL td uid inp.admin_username inp.admin_email true true with
        | .error e => (.error e, s3)
        | .ok td2 => (.ok (), setTenantData s3 schemaL td2)

inductive RegResult where
  | created
  | validationError
  | serverError
  deriving DecidableEq

/-- The whole registration request (tenants/views.py register_company):
run the field validators, then the atomic create block. On any failure
inside the block every row written in it is rolled back, but
connection.set_tenant is a client-side switch the rollback does not undo,
so the active-schema field keeps whatever the failed block set. -/
def register_company (s : DBState) (inp : RegInput) (cid did uid : Nat) :
    RegResult × DBState :=
  match validate_schema_name s inp.schema_name with
  | .error _ => (.validationError, s)
  | .ok schemaL =>
    match validate_domain_url s inp.domain_url with
    | .error _ => (.validationError, s)
    | .ok domainL =>
      match registerSteps s inp schemaL domainL cid did uid with
      | (.ok _, s2) => (.created, s2)
      | (.error _, s2) =>
        (.serverError,
          { companies := s.companies, domains := s.domains, tenants := s.tenants,
            activeSchema := s2.activeSchema, sentEmails := s.sentEmails })

/-! ### Tenant user registration (core/serializers.py UserRegistrationSerializer) -/

structure UserRegInput where
  username : String
  email : String
  password : String
  role : String
  phone : Option String
  department : Option String
  deriving DecidableEq

inductive UserRegResult where
  | created
  | validationError
  | integrityError
  deriving DecidableEq

/-- UserRegistrationSerializer: validate_username and validate_email check
uniqueness inside the active schema, then create the user (firing the
post_save signal) and then explicitly create the profile row. A second
profile row for the same user violates the one-to-one UNIQUE constraint;
there is no enclosing transaction, so the user row written before the
failing insert persists. -/
def user_register (schema : String) (td : TenantData) (uid : Nat) (inp : UserRegInput) :
    UserRegResult × TenantData :=
  if td.users.any (fun u => u.username == inp.username) then (.validationError, td)
  else if td.users.any (fun u => u.email == inp.email) then (.validationError, td)
  else
    match create_user_with_signal schema td uid inp.username inp.email false false with
    | .error _ => (.integrityError, td)
    | .ok td1 =>
      if td1.profiles.any (fun p => p.userId == uid) then
        (.integrityError, td1)
      else
        (.created, { td1 with profiles := td1.profiles ++ [⟨uid, inp.role, inp.phone, inp.department⟩] })

/-! ### Tenant-scoped views (core/views.py) -/

def countStatus (l : List Task) (st : String) : Nat :=
  (l.filter (fun t => t.status == st)).length

def countPriority (l : List Task) (pr : String) : Nat :=
  (l.filter (fun t => t.priority == pr)).length

def projectTasks (td : TenantData) (p : Project) : List Task :=
  td.tasks.filter (fun t => t.projectId == p.id)

/-- ProjectViewSet.statistics: per-status and per-priority counts of the
project's tasks. -/
structure ProjectStatistics where
  total_tasks : Nat
  todo : Nat
  in_progress : Nat
  review : Nat
  done : Nat
  low : Nat
  medium : Nat
  high : Nat
  urgent : Nat
  deriving DecidableEq

def statistics (td : TenantData) (p : Project) : ProjectStatistics :=
  let tasks := projectTasks td p
  { total_tasks := tasks.length
  , todo := countStatus tasks "todo"
  , in_progress := countStatus tasks "in_progress"
  , review := countStatus tasks "review"
  , done := countStatus tasks "done"
  , low := countPriority tasks "low"
  , medium := countPriority tasks "medium"
  , high := countPriority tasks "high"
  , urgent := countPriority tasks "urgent" }

/-- Projects where the user is owner or member (the distinct queryset used
by ProjectViewSet.get_queryset and dashboard_stats). -/
def accessibleProjects (td : TenantData) (u : Nat) : List Project :=
  td.projects.filter (fun p => p.ownerId == u || p.memberIds.contains u)

/-- Tasks whose project is accessible to the user. -/
def tasksInAccessible (td : TenantData) (u : Nat) : List Task :=
  td.tasks.filter (fun t => (accessibleProjects td u).any (fun p => p.id == t.projectId))

/-- Of those, the tasks assigned to the user. -/
def myAssignedTasks (td : TenantData) (u : Nat) : List Task :=
  (tasksInAccessible td u).filter (fun t => t.assignedToId == some u)

/-- Descending created_at order on projects (the model's default ordering). -/
def projDescR (a b : Project) : Prop := b.createdAt ≤ a.createdAt

instance : DecidableRel projDescR :=
  fun a b => inferInstanceAs (Decidable (b.createdAt ≤ a.createdAt))

instance : IsTotal Project projDescR := ⟨fun a b => le_total b.createdAt a.createdAt⟩

instance : IsTrans Project projDescR := ⟨fun _ _ _ h1 h2 => le_trans h2 h1⟩

/-- Descending created_at order on tasks. -/
def taskDescR (a b : Task) : Prop := b.createdAt ≤ a.createdAt

instance : DecidableRel taskDescR :=
  fun a b => inferInstanceAs (Decidable (b.createdAt ≤ a.createdAt))

instance : IsTotal Task taskDescR := ⟨fun a b => le_total b.createdAt a.createdAt⟩

instance : IsTrans Task taskDescR := ⟨fun _ _ _ h1 h2 => le_trans h2 h1⟩

/-- core/views.py dashboard_stats: the JSON payload of GET /dashboard/.
The my_tasks breakdown carries exactly the keys the code writes: total,
todo, in_progress and done. -/
structure DashboardStats where
  total_projects : Nat
  total_tasks : Nat
  my_total : Nat
  my_todo : Nat
  my_in_progress : Nat
  my_done : Nat
  projects : List Project
  recent_tasks : List Task
  deriving DecidableEq

def dashboard_stats (td : TenantData) (u : Nat) : DashboardStats :=
  let projects := accessibleProjects td u
  let all_tasks := tasksInAccessible td u
  let my_tasks := myAssignedTasks td u
  { total_projects := projects.length
  , total_tasks := all_tasks.length
  , my_total := my_tasks.length
  , my_todo := countStatus my_tasks "todo"
  , my_in_progress := countStatus my_tasks "in_progress"
  , my_done := countStatus my_tasks "done"
  , projects := (List.insertionSort projDescR projects).take 5
  , recent_tasks := (List.insertionSort taskDescR my_tasks).take 5 }

/-! ### Project member actions (core/views.py ProjectViewSet) -/

inductive ApiResult where
  | ok
  | forbidden
  | notFound
  deriving DecidableEq

/-- ProjectViewSet.add_member: owner-only; 404 when the target user id does
not resolve; otherwise many-to-many add (idempotent set insertion). -/
def add_member (caller : Nat) (p : Project) (users : List AuthUser) (targetId : Nat) :
    ApiResult × Project :=
  if p.ownerId ≠ caller then (.forbidden, p)
  else
    match users.find? (fun u => u.id == targetId) with
    | none => (.notFound, p)
    | some _ =>
      (.ok, if p.memberIds.contains targetId then p
            else { p with memberIds := p.memberIds ++ [targetId] })

/-- ProjectViewSet.remove_member: owner-only; 404 when the target user id
does not resolve; otherwise many-to-many remove. -/
def remove_member (caller : Nat) (p : Project) (users : List AuthUser) (targetId : Nat) :
    ApiResult × Project :=
  if p.ownerId ≠ caller then (.forbidden, p)
  else
    match users.find? (fun u => u.id == targetId) with
    | none => (.notFound, p)
    | some _ => (.ok, { p with memberIds := p.memberIds.filter (fun m => m ≠ targetId) })

/-! ### Task creation (core/serializers.py TaskSerializer) -/

structure TaskInput where
  projectId : Nat
  title : String
  priority : String
  status : String
  assignedToId : Option Nat
  dueDate : Option Int
  deriving DecidableEq

/-- TaskSerializer.create with validate_project: resolve the project primary
key, reject when the creator neither owns the project nor is in its member
set, otherwise append the task with created_by set to the creator. -/
def create_task (td : TenantData) (u : Nat) (inp : TaskInput) (tid : Nat) (now : Int) :
    Except String TenantData :=
  match td.projects.find? (fun p => p.id == inp.projectId) with
  | none => .error "Invalid pk - object does not exist."
  | some p =>
    if p.ownerId ≠ u ∧ ¬ p.memberIds.contains u then
      .error "You don't have permission to create tasks in this project."
    else
      .ok { td with tasks := td.tasks ++
        [⟨tid, p.id, inp.title, inp.priority, inp.status, inp.assignedToId, u, inp.dueDate, none, now⟩] }

/-! ### Background jobs (core/tasks.py) -/

def findUser (td : TenantData) (uid : Nat) : Option AuthUser :=
  td.users.find? (fun u => u.id == uid)

/-- core/tasks.py send_task_reminder_email: inside schema_context, load the
task and send one mail when it has an assignee with a nonempty email. -/
def send_task_reminder_email (taskId : Nat) (tenant_schema : String) (s : DBState) : DBState :=
  schema_context tenant_schema (fun s1 =>
    match tenantOf s1 s1.activeSchema with
    | none => s1
    | some td =>
      match td.tasks.find? (fun t => t.id == taskId) with
      | none => s1
      | some t =>
        match t.assignedToId.bind (fun uid => findUser td uid) with
        | none => s1
        | some u =>
          if u.email ≠ "" then { s1 with sentEmails := s1.sentEmails ++ [u.email] }
          else s1) s

/-- SQL semantics of the filter completed_at < cutoff: a NULL completion
time never satisfies the comparison. -/
def optLt (v : Option Int) (cutoff : Int) : Bool :=
  match v with
  | none => false
  | some x => decide (x < cutoff)

/-- The per-tenant delete of cleanup_old_data: remove exactly the tasks with
status done and completion time strictly before the cutoff. -/
def cleanupTenantTasks (cutoff : Int) (td : TenantData) : TenantData :=
  { td with tasks := td.tasks.filter (fun t => !(t.status == "done" && optLt t.completedAt cutoff)) }

/-- core/tasks.py cleanup_old_data: for every active company, inside
schema_context, delete the old done tasks of that schema; an exception for
one tenant (modelled by the schema being absent, on which modifySchema is a
no-op) is logged and does not abort the loop. -/
def cleanup_old_data (now : Int) (days : Int) (s : DBState) : DBState :=
  let cutoff := now - days
  (s.companies.filter (fun c => c.is_active)).foldl
    (fun acc c =>
      schema_context c.schema_name
        (fun s1 => modifySchema s1 s1.activeSchema (cleanupTenantTasks cutoff)) acc)
    s

/-! ### Concrete fixtures -/

/-- An empty public-schema database with the connection on the public schema. -/
def regS0 : DBState := ⟨[], [], [], "public", []⟩

/-- The registration payload of the spec's example scenario. -/
def regInp0 : RegInput :=
  ⟨"Acme", "acme", "acme.example.com", "admin", "admin@acme.com", "password123", "free"⟩

/-- A registration payload whose schema identifier contains a hyphen. -/
def regInpHyphen : RegInput :=
  ⟨"Acme", "my-co", "acme.example.com", "admin", "admin@acme.com", "password123", "free"⟩

/-- The database after the example registration succeeded. -/
def regS1 : DBState := (register_company regS0 regInp0 1 1 1).2

/-- A second registration whose schema identifier is a case variant of the
already-registered one and whose domain is fresh. -/
def regInpCase : RegInput :=
  ⟨"Acme Two", "ACME", "two.example.com", "admin2", "admin@two.com", "password123", "free"⟩

/-- A tenant-user registration payload asking for the manager role. -/
def c4inp : UserRegInput := ⟨"alice", "alice@acme.com", "password123", "manager", none, none⟩

/-- One tenant: the admin owns one project holding one task in review status
assigned to the admin. -/
def c5td : TenantData :=
  { users := [⟨1, "admin", "admin@acme.com", true, true⟩]
  , profiles := [⟨1, "member", none, none⟩]
  , projects := [⟨1, "Launch", "planning", 1, [], 0⟩]
  , tasks := [⟨1, 1, "Write spec", "high", "review", some 1, 1, none, none, 0⟩] }

/-- Same tenant but with the task in todo status (the spec's example
scenario after self-assignment). -/
def c5wtd : TenantData :=
  { users := [⟨1, "admin", "admin@acme.com", true, true⟩]
  , profiles := [⟨1, "member", none, none⟩]
  , projects := [⟨1, "Launch", "planning", 1, [], 0⟩]
  , tasks := [⟨1, 1, "Write spec", "high", "todo", some 1, 1, none, none, 0⟩] }

/-- Two active companies, the first of which has no schema in the database
(its per-tenant block fails); the second holds a done task completed 91 days
before time 0 and a done task completed 89 days before time 0. -/
def c8state : DBState :=
  { companies := [⟨1, "Ghost", "ghost", "free", true⟩, ⟨2, "Beta", "beta", "free", true⟩]
  , domains := []
  , tenants := [("beta",
      { users := [], profiles := [], projects := []
      , tasks := [⟨1, 1, "old", "low", "done", none, 1, none, some (-91), -91⟩,
                  ⟨2, 1, "new", "low", "done", none, 1, none, some (-89), -89⟩] })]
  , activeSchema := "public"
  , sentEmails := [] }

/-- A done task with no completion timestamp. -/
def c9task : Task := ⟨1, 1, "stale", "low", "done", none, 1, none, none, -1000⟩

/-- One active tenant whose only task is done but has a null completed_at. -/
def c9state : DBState :=
  { companies := [⟨1, "Beta", "beta", "free", true⟩]
  , domains := []
  , tenants := [("beta", { users := [], profiles := [], projects := [], tasks := [c9task] })]
  , activeSchema := "public"
  , sentEmails := [] }

/-! ### Helper lemmas -/

/-- Counting a list of tasks by four pairwise distinct values of a string
field partitions its length when every element carries one of the four
values. -/
theorem count_partition4 (f : Task → String) (a b c d : String) (l : List Task)
    (hab : a ≠ b) (hac : a ≠ c) (had : a ≠ d) (hbc : b ≠ c) (hbd : b ≠ d) (hcd : c ≠ d)
    (h : ∀ t ∈ l, f t = a ∨ f t = b ∨ f t = c ∨ f t = d) :
    (l.filter (fun t => f t == a)).length + (l.filter (fun t => f t == b)).length +
      (l.filter (fun t => f t == c)).length + (l.filter (fun t => f t == d)).length
      = l.length := by
  induction l with
  | nil => simp
  | cons t l ih =>
    have ht := h t (List.mem_cons_self t l)
    have hl : ∀ x ∈ l, f x = a ∨ f x = b ∨ f x = c ∨ f x = d :=
      fun x hx => h x (List.mem_cons_of_mem t hx)
    have hrec := ih hl
    rcases ht with h1 | h1 | h1 | h1 <;>
      simp only [List.filter_cons, h1, beq_self_eq_true, if_true, beq_iff_eq, List.length_cons] <;>
      simp [hab, hac, had, hbc, hbd, hcd, Ne.symm hab, Ne.symm hac, Ne.symm had,
        Ne.symm hbc, Ne.symm hbd, Ne.symm hcd] <;> omega

/-- The effect of one company's cleanup pass on one schema entry. -/
def cleanEntry (cutoff : Int) (sc : String) (p : String × TenantData) : String × TenantData :=
  if p.1 == sc then (p.1, cleanupTenantTasks cutoff p.2) else p

/-- The combined effect of the cleanup loop on one schema entry: the entry is
cleaned exactly when some listed company names its schema. -/
def cleanEntryAll (cutoff : Int) (cs : List Company) (p : String × TenantData) :
    String × TenantData :=
  if cs.any (fun c => p.1 == c.schema_name) then (p.1, cleanupTenantTasks cutoff p.2) else p

theorem cleanupTenantTasks_idem (cutoff : Int) (td : TenantData) :
    cleanupTenantTasks cutoff (cleanupTenantTasks cutoff td) = cleanupTenantTasks cutoff td := by
  simp [cleanupTenantTasks, List.filter_filter]

theorem cleanEntryAll_cons (cutoff : Int) (c : Company) (cs : List Company)
    (p : String × TenantData) :
    cleanEntryAll cutoff (c :: cs) p
      = cleanEntryAll cutoff cs (cleanEntry cutoff c.schema_name p) := by
  unfold cleanEntryAll cleanEntry
  by_cases h : (p.1 == c.schema_name) = true
  · simp only [List.any_cons, h, Bool.true_or, if_true]
    split
    · rw [cleanupTenantTasks_idem]
    · rfl
  · have heq : (p.1 == c.schema_name) = false := by simpa using h
    simp [List.any_cons, heq]

/-- The cleanup job is, definitionally, a fold of per-schema table rewrites
(the schema_context wrapper restores the active schema around each). -/
theorem cleanup_old_data_eq_foldl (now days : Int) (s : DBState) :
    cleanup_old_data now days s =
      (s.companies.filter (fun c => c.is_active)).foldl
        (fun a c => modifySchema a c.schema_name (cleanupTenantTasks (now - days))) s := rfl

theorem foldl_modifySchema_tenants (cutoff : Int) (cs : List Company) (s : DBState) :
    (cs.foldl (fun a c => modifySchema a c.schema_name (cleanupTenantTasks cutoff)) s).tenants
      = s.tenants.map (cleanEntryAll cutoff cs) := by
  induction cs generalizing s with
  | nil =>
    have hid : cleanEntryAll cutoff ([] : List Company) = id := funext fun p => by
      simp [cleanEntryAll]
    rw [hid, List.map_id]
    rfl
  | cons c cs ih =>
    rw [List.foldl_cons, ih]
    show (s.tenants.map (cleanEntry cutoff c.schema_name)).map (cleanEntryAll cutoff cs)
        = s.tenants.map (cleanEntryAll cutoff (c :: cs))
    rw [List.map_map]
    exact List.map_congr_left (fun p _ => (cleanEntryAll_cons cutoff c cs p).symm)

/-- Per-entry characterization of the cleanup job: each schema entry is
rewritten by cleanEntryAll over the active companies; entries no active
company names (including a failing tenant whose schema is absent) are left
untouched, and one tenant's absence never stops the others from being
processed. -/
theorem cleanup_tenants_eq (now days : Int) (s : DBState) :
    (cleanup_old_data now days s).tenants
      = s.tenants.map (cleanEntryAll (now - days) (s.companies.filter (fun c => c.is_active))) := by
  rw [cleanup_old_data_eq_foldl]
  exact foldl_modifySchema_tenants _ _ _

theorem create_user_with_signal_mem (sch : String) (td : TenantData) (uid : Nat)
    (un em : String) (st su : Bool) (td2 : TenantData)
    (h : create_user_with_signal sch td uid un em st su = .ok td2) :
    (⟨uid, un, em, st, su⟩ : AuthUser) ∈ td2.users := by
  unfold create_user_with_signal at h
  split at h
  · cases h
  · dsimp only at h
    cases h
    split
    · split <;> simp
    · simp

theorem find?_set (m : List (String × TenantData)) (sc : String) (td : TenantData)
    (hex : m.any (fun p => p.1 == sc) = true) :
    (m.map (fun p => if p.1 == sc then (p.1, td) else p)).find? (fun p => p.1 == sc)
      = some (sc, td) := by
  induction m with
  | nil => simp at hex
  | cons p m ih =>
    rw [List.map_cons]
    by_cases h : (p.1 == sc) = true
    · have hpe : p.1 = sc := by simpa using h
      rw [if_pos h, List.find?_cons_of_pos _ (by simpa using h), hpe]
    · have hf : (p.1 == sc) = false := by simpa using h
      have hex2 : m.any (fun q => q.1 == sc) = true := by
        simpa [List.any_cons, hf] using hex
      rw [if_neg h, List.find?_cons_of_neg _ (by simpa using hf), ih hex2]

theorem tenantOf_setTenantData (s : DBState) (sc : String) (td : TenantData)
    (hex : s.tenants.any (fun p => p.1 == sc) = true) :
    tenantOf (setTenantData s sc td) sc = some td := by
  show ((s.tenants.map (fun p => if p.1 == sc then (p.1, td) else p)).find?
      (fun p => p.1 == sc)).map (fun p => p.2) = some td
  rw [find?_set s.tenants sc td hex]
  rfl

theorem validate_schema_name_ok (s : DBState) (v w : String)
    (h : validate_schema_name s v = .ok w) : w = pyLower v := by
  unfold validate_schema_name at h
  split at h
  · cases h
  · split at h
    · cases h
    · exact (Except.ok.inj h).symm

theorem validate_domain_url_ok (s : DBState) (v w : String)
    (h : validate_domain_url s v = .ok w) : w = pyLower v := by
  unfold validate_domain_url at h
  split at h
  · cases h
  · exact (Except.ok.inj h).symm

theorem registerSteps_ok (s : DBState) (inp : RegInput) (schemaL domainL : String)
    (cid did uid : Nat) (u : Unit) (st : DBState)
    (h : registerSteps s inp schemaL domainL cid did uid = (.ok u, st)) :
    st.companies = s.companies ++
        [⟨cid, inp.company_name, schemaL, inp.subscription_plan, true⟩] ∧
    st.domains = s.domains ++ [⟨did, domainL, cid, true⟩] ∧
    (∃ td, tenantOf st schemaL = some td ∧
        (⟨uid, inp.admin_username, inp.admin_email, true, true⟩ : AuthUser) ∈ td.users) ∧
    (∀ c ∈ s.companies, c.schema_name ≠ schemaL) ∧
    (∀ d ∈ s.domains, d.domain ≠ domainL) := by
  unfold registerSteps at h
  split at h
  · exact absurd h (by simp)
  · next hdup =>
    dsimp only at h
    split at h
    · exact absurd h (by simp)
    · next hdup2 =>
      split at h
      · exact absurd h (by simp)
      · next td htd =>
        split at h
        · exact absurd h (by simp)
        · next td2 hcu =>
          have hst := congrArg Prod.snd h
          dsimp only at hst
          subst hst
          refine ⟨rfl, rfl, ?_, ?_, ?_⟩
          · exact ⟨td2, tenantOf_setTenantData _ _ _ (by simp),
              create_user_with_signal_mem _ _ _ _ _ _ _ _ hcu⟩
          · exact fun c hcm hceq => hdup (List.any_eq_true.mpr ⟨c, hcm, by simp [hceq]⟩)
          · exact fun d hdm hdeq => hdup2 (List.any_eq_true.mpr ⟨d, hdm, by simp [hdeq]⟩)

theorem register_company_not_created (s : DBState) (inp : RegInput) (cid did uid : Nat)
    (hr : (register_company s inp cid did uid).1 ≠ .created) :
    (register_company s inp cid did uid).2.companies = s.companies ∧
    (register_company s inp cid did uid).2.domains = s.domains ∧
    (register_company s inp cid did uid).2.tenants = s.tenants := by
  cases hv : validate_schema_name s inp.schema_name with
  | error e => simp [register_company, hv]
  | ok schemaL =>
    cases hd : validate_domain_url s inp.domain_url with
    | error e => simp [register_company, hv, hd]
    | ok domainL =>
      cases hs : registerSteps s inp schemaL domainL cid did uid with
      | mk res s3 =>
        cases res with
        | ok u =>
          exfalso
          apply hr
          simp [register_company, hv, hd, hs]
        | error e => simp [register_company, hv, hd, hs]

theorem register_company_created (s : DBState) (inp : RegInput) (cid did uid : Nat)
    (hc : (register_company s inp cid did uid).1 = .created) :
    (register_company s inp cid did uid).2.companies = s.companies ++
        [⟨cid, inp.company_name, pyLower inp.schema_name, inp.subscription_plan, true⟩] ∧
    (register_company s inp cid did uid).2.domains = s.domains ++
        [⟨did, pyLower inp.domain_url, cid, true⟩] ∧
    (∃ td, tenantOf (register_company s inp cid did uid).2 (pyLower inp.schema_name)
          = some td ∧
        (⟨uid, inp.admin_username, inp.admin_email, true, true⟩ : AuthUser) ∈ td.users) ∧
    (∀ c ∈ s.companies, c.schema_name ≠ pyLower inp.schema_name) ∧
    (∀ d ∈ s.domains, d.domain ≠ pyLower inp.domain_url) := by
  cases hv : validate_schema_name s inp.schema_name with
  | error e => simp [register_company, hv] at hc
  | ok schemaL =>
    cases hd : validate_domain_url s inp.domain_url with
    | error e => simp [register_company, hv, hd] at hc
    | ok domainL =>
      cases hs : registerSteps s inp schemaL domainL cid did uid with
      | mk res s3 =>
        cases res with
        | error e => simp [register_company, hv, hd, hs] at hc
        | ok u =>
          have hL : schemaL = pyLower inp.schema_name := validate_schema_name_ok s _ _ hv
          have hD : domainL = pyLower inp.domain_url := validate_domain_url_ok s _ _ hd
          have H := registerSteps_ok s inp schemaL domainL cid did uid u s3 hs
          rw [hL, hD] at H
          have hgoal : (register_company s inp cid did uid).2 = s3 := by
            simp [register_company, hv, hd, hs]
          rw [hgoal]
          exact H

/-- C10: for every project whose tasks each carry one of the four enumerated
statuses and one of the four enumerated priorities, the statistics action
returns per-status counts summing to total_tasks and per-priority counts
summing to total_tasks. -/
theorem C10_statistics_counts_partition (td : TenantData) (p : Project)
    (hs : ∀ t ∈ projectTasks td p, t.status = "todo" ∨ t.status = "in_progress" ∨
            t.status = "review" ∨ t.status = "done")
    (hp : ∀ t ∈ projectTasks td p, t.priority = "low" ∨ t.priority = "medium" ∨
            t.priority = "high" ∨ t.priority = "urgent") :
    (statistics td p).todo + (statistics td p).in_progress + (statistics td p).review +
        (statistics td p).done = (statistics td p).total_tasks ∧
    (statistics td p).low + (statistics td p).medium + (statistics td p).high +
        (statistics td p).urgent = (statistics td p).total_tasks := by
  constructor
  · simpa [statistics, countStatus] using
      count_partition4 (fun t => t.status) "todo" "in_progress" "review" "done"
        (projectTasks td p) (by decide) (by decide) (by decide) (by decide) (by decide)
        (by decide) hs
  · simpa [statistics, countPriority] using
      count_partition4 (fun t => t.priority) "low" "medium" "high" "urgent"
        (projectTasks td p) (by decide) (by decide) (by decide) (by decide) (by decide)
        (by decide) hp

/-- Witness for C10 at the example tenant, whose single task is todo/high. -/
theorem C10_statistics_counts_partition_witness :
    (statistics c5wtd ⟨1, "Launch", "planning", 1, [], 0⟩).todo +
        (statistics c5wtd ⟨1, "Launch", "planning", 1, [], 0⟩).in_progress +
        (statistics c5wtd ⟨1, "Launch", "planning", 1, [], 0⟩).review +
        (statistics c5wtd ⟨1, "Launch", "planning", 1, [], 0⟩).done
      = (statistics c5wtd ⟨1, "Launch", "planning", 1, [], 0⟩).total_tasks :=
  (C10_statistics_counts_partition c5wtd ⟨1, "Launch", "planning", 1, [], 0⟩
    (by decide) (by decide)).1

/-- C7: the add_member and remove_member project actions succeed only for the
project owner; a non-owner caller gets a forbidden result with the project
unchanged, and an owner naming a nonexistent user gets a not-found result
with the project unchanged. -/
theorem C7_member_actions_owner_only (caller : Nat) (p : Project)
    (users : List AuthUser) (targetId : Nat) :
    (caller ≠ p.ownerId →
      add_member caller p users targetId = (.forbidden, p) ∧
      remove_member caller p users targetId = (.forbidden, p)) ∧
    (caller = p.ownerId → users.find? (fun u => u.id == targetId) = none →
      add_member caller p users targetId = (.notFound, p) ∧
      remove_member caller p users targetId = (.notFound, p)) := by
  constructor
  · intro h
    have h2 : p.ownerId ≠ caller := fun e => h e.symm
    constructor <;> simp [add_member, remove_member, h2]
  · intro h hf
    have h2 : ¬ p.ownerId ≠ caller := by simp [h]
    constructor <;> simp [add_member, remove_member, h2, hf]

/-- Witness for C7: a non-owner member is refused, and the owner naming a
missing user id gets not-found, in both cases leaving the project intact. -/
theorem C7_member_actions_owner_only_witness :
    add_member 2 ⟨1, "Launch", "planning", 1, [2], 0⟩ [⟨2, "bob", "bob@acme.com", false, false⟩] 2
        = (.forbidden, ⟨1, "Launch", "planning", 1, [2], 0⟩) ∧
    add_member 1 ⟨1, "Launch", "planning", 1, [2], 0⟩ [⟨2, "bob", "bob@acme.com", false, false⟩] 3
        = (.notFound, ⟨1, "Launch", "planning", 1, [2], 0⟩) :=
  ⟨((C7_member_actions_owner_only 2 ⟨1, "Launch", "planning", 1, [2], 0⟩
      [⟨2, "bob", "bob@acme.com", false, false⟩] 2).1 (by decide)).1,
   ((C7_member_actions_owner_only 1 ⟨1, "Launch", "planning", 1, [2], 0⟩
      [⟨2, "bob", "bob@acme.com", false, false⟩] 3).2 rfl (by decide)).1⟩

/-- C6: task creation is rejected when the creating identity neither owns
nor is a member of the target project, and the same payload is accepted
(appending the task with created_by set to the creator) once the creator is
in the project's member set. -/
theorem C6_task_create_requires_project_access (td : TenantData) (u : Nat)
    (inp : TaskInput) (tid : Nat) (now : Int) (p : Project)
    (hfind : td.projects.find? (fun q => q.id == inp.projectId) = some p) :
    ((p.ownerId ≠ u ∧ ¬ p.memberIds.contains u) →
       create_task td u inp tid now =
         .error "You don't have permission to create tasks in this project.") ∧
    (p.memberIds.contains u →
       create_task td u inp tid now =
         .ok { td with tasks := td.tasks ++
           [⟨tid, p.id, inp.title, inp.priority, inp.status, inp.assignedToId, u,
             inp.dueDate, none, now⟩] }) := by
  constructor
  · intro h
    have h2 : u ∉ p.memberIds := by simpa using h.2
    simp [create_task, hfind, h.1, h2]
  · intro h
    have h2 : u ∈ p.memberIds := by simpa using h
    simp only [create_task, hfind]
    rw [if_neg (fun hc => (by simpa using hc.2 : u ∉ p.memberIds) h2)]

/-- Witness for C6: user 2 cannot create a task in the admin's project, and
can once made a member. -/
theorem C6_task_create_requires_project_access_witness :
    create_task c5td 2 ⟨1, "New", "low", "todo", none, none⟩ 2 1
        = .error "You don't have permission to create tasks in this project." ∧
    create_task { c5td with projects := [⟨1, "Launch", "planning", 1, [2], 0⟩] } 2
        ⟨1, "New", "low", "todo", none, none⟩ 2 1
      = .ok { c5td with
          projects := [⟨1, "Launch", "planning", 1, [2], 0⟩]
        , tasks := c5td.tasks ++ [⟨2, 1, "New", "low", "todo", none, 2, none, none, 1⟩] } :=
  ⟨(C6_task_create_requires_project_access c5td 2 ⟨1, "New", "low", "todo", none, none⟩ 2 1
      ⟨1, "Launch", "planning", 1, [], 0⟩ (by decide)).1 (by decide),
   (C6_task_create_requires_project_access
      { c5td with projects := [⟨1, "Launch", "planning", 1, [2], 0⟩] } 2
      ⟨1, "New", "low", "todo", none, none⟩ 2 1
      ⟨1, "Launch", "planning", 1, [2], 0⟩ (by decide)).2 (by decide)⟩

/-- C4: in a tenant schema the post_save signal creates a member profile
while the user row is saved, so the serializer's subsequent explicit profile
insert violates the one-to-one constraint: a fresh, fully valid registration
(alice asking for the manager role in an empty tenant) ends in an integrity
error instead of a created response, while the user row and the
default-role profile written before the failure persist. -/
theorem C4_user_register_signal_conflict :
    user_register "acme" emptyTenant 1 c4inp =
      (.integrityError,
        { users := [⟨1, "alice", "alice@acme.com", false, false⟩]
        , profiles := [⟨1, "member", none, none⟩], projects := [], tasks := [] }) ∧
    (∀ (td : TenantData) (uid : Nat) (un em : String) (st su : Bool),
      (create_user_with_signal "public" td uid un em st su).map (fun td2 => td2.profiles)
        = (create_user_with_signal "public" td uid un em st su).map (fun _ => td.profiles)) := by
  constructor
  · decide
  · intro td uid un em st su
    simp only [create_user_with_signal]
    split <;> rfl

/-- C2: every background job switches namespaces through schema_context,
which restores the caller's active schema, but the registration sequence
switches with connection.set_tenant and never restores: after the example
registration completes on a public-schema connection, the connection is
left on the new tenant's schema. -/
theorem C2_namespace_switch_scoping :
    (∀ (s : DBState) (taskId : Nat) (sc : String),
        (send_task_reminder_email taskId sc s).activeSchema = s.activeSchema) ∧
    (∀ (now days : Int) (s : DBState),
        (cleanup_old_data now days s).activeSchema = s.activeSchema) ∧
    regS0.activeSchema = "public" ∧
    (register_company regS0 regInp0 1 1 1).1 = .created ∧
    (register_company regS0 regInp0 1 1 1).2.activeSchema = "acme" := by
  refine ⟨fun s taskId sc => rfl, ?_, rfl, by decide, by decide⟩
  intro now days s
  show ((s.companies.filter (fun c => c.is_active)).foldl _ s).activeSchema = s.activeSchema
  generalize (s.companies.filter (fun c => c.is_active)) = cs
  induction cs generalizing s with
  | nil => rfl
  | cons c cs ih => exact ih _

/-- C8: cleanup_old_data rewrites, in each schema an active company names,
the task table to exactly its tasks that are not both done and completed
strictly before the cutoff; a tenant whose schema is absent is skipped
without stopping the others; on the concrete two-company state the ghost
tenant is skipped while beta's task completed 91 days before the cutoff
origin is deleted and the one completed 89 days before is retained. -/
theorem C8_cleanup_deletes_exactly_old_done (now days : Int) (s : DBState) :
    ((cleanup_old_data now days s).tenants
        = s.tenants.map (cleanEntryAll (now - days)
            (s.companies.filter (fun c => c.is_active)))) ∧
    (∀ (cutoff : Int) (td : TenantData) (t : Task),
        t ∈ (cleanupTenantTasks cutoff td).tasks ↔
          t ∈ td.tasks ∧ ¬ (t.status = "done" ∧ optLt t.completedAt cutoff = true)) ∧
    (cleanup_old_data 0 90 c8state).tenants =
      [("beta", { users := [], profiles := [], projects := []
                , tasks := [⟨2, 1, "new", "low", "done", none, 1, none, some (-89), -89⟩] })] := by
  refine ⟨cleanup_tenants_eq now days s, ?_, by decide⟩
  intro cutoff td t
  simp [cleanupTenantTasks, List.mem_filter]
  tauto

/-- C9: a task whose completed_at is null is never deleted by the cleanup
job, whatever its status or age: the strict less-than comparison never
matches a null completion time. -/
theorem C9_null_completed_at_retained (now days : Int) (s : DBState) (sc : String)
    (td : TenantData) (t : Task)
    (hmem : (sc, td) ∈ s.tenants) (ht : t ∈ td.tasks) (hnull : t.completedAt = none) :
    ∃ td2, (sc, td2) ∈ (cleanup_old_data now days s).tenants ∧ t ∈ td2.tasks := by
  rw [cleanup_tenants_eq]
  by_cases hb : ((s.companies.filter (fun c => c.is_active)).any
      (fun c => sc == c.schema_name)) = true
  · refine ⟨cleanupTenantTasks (now - days) td, ?_, ?_⟩
    · have hm := List.mem_map_of_mem
        (cleanEntryAll (now - days) (s.companies.filter (fun c => c.is_active))) hmem
      rwa [show cleanEntryAll (now - days) (s.companies.filter (fun c => c.is_active)) (sc, td)
            = (sc, cleanupTenantTasks (now - days) td) from by simp [cleanEntryAll, hb]] at hm
    · simp [cleanupTenantTasks, List.mem_filter, ht, hnull, optLt]
  · refine ⟨td, ?_, ht⟩
    have hm := List.mem_map_of_mem
      (cleanEntryAll (now - days) (s.companies.filter (fun c => c.is_active))) hmem
    rwa [show cleanEntryAll (now - days) (s.companies.filter (fun c => c.is_active)) (sc, td)
          = (sc, td) from by simp [cleanEntryAll, hb]] at hm

/-- Witness for C9: the done task with a null completed_at survives a
90-day cleanup of its active tenant. -/
theorem C9_null_completed_at_retained_witness :
    ∃ td2, ("beta", td2) ∈ (cleanup_old_data 0 90 c9state).tenants ∧ c9task ∈ td2.tasks :=
  C9_null_completed_at_retained 0 90 c9state "beta"
    { users := [], profiles := [], projects := [], tasks := [c9task] } c9task
    (by decide) (by decide) rfl

/-- C5 counterexample: with one accessible task in review status assigned to
the user, the dashboard's per-status breakdown (which only reports todo,
in_progress and done) does not sum to the user's assigned-task total, so the
breakdown does not cover every task status. -/
theorem C5_dashboard_stats_counterexample :
    ¬ ((dashboard_stats c5td 1).my_todo + (dashboard_stats c5td 1).my_in_progress +
        (dashboard_stats c5td 1).my_done = (dashboard_stats c5td 1).my_total) := by
  decide

/-- C5 (amended): the dashboard reports the count of accessible projects,
the count of tasks in those projects, a breakdown of the user's assigned
tasks over the statuses todo, in_progress and done only (review is omitted,
so those three counts plus the review count give the assigned total), the
first five of the accessible projects ordered by created_at descending, and
the first five of the user's assigned accessible tasks ordered by created_at
descending. -/
theorem C5_dashboard_stats_spec (td : TenantData) (u : Nat)
    (h : ∀ t ∈ myAssignedTasks td u, t.status = "todo" ∨ t.status = "in_progress" ∨
           t.status = "review" ∨ t.status = "done") :
    (dashboard_stats td u).total_projects = (accessibleProjects td u).length ∧
    (dashboard_stats td u).total_tasks = (tasksInAccessible td u).length ∧
    (dashboard_stats td u).my_total = (myAssignedTasks td u).length ∧
    (dashboard_stats td u).my_todo + (dashboard_stats td u).my_in_progress +
        (dashboard_stats td u).my_done + countStatus (myAssignedTasks td u) "review"
      = (dashboard_stats td u).my_total ∧
    (dashboard_stats td u).projects =
      (List.insertionSort projDescR (accessibleProjects td u)).take 5 ∧
    List.Sorted projDescR (List.insertionSort projDescR (accessibleProjects td u)) ∧
    (∀ p, p ∈ List.insertionSort projDescR (accessibleProjects td u) ↔
        p ∈ accessibleProjects td u) ∧
    (dashboard_stats td u).recent_tasks =
      (List.insertionSort taskDescR (myAssignedTasks td u)).take 5 ∧
    List.Sorted taskDescR (List.insertionSort taskDescR (myAssignedTasks td u)) ∧
    (∀ t, t ∈ List.insertionSort taskDescR (myAssignedTasks td u) ↔
        t ∈ myAssignedTasks td u) := by
  have hsum := count_partition4 (fun t => t.status) "todo" "in_progress" "review" "done"
    (myAssignedTasks td u) (by decide) (by decide) (by decide) (by decide) (by decide)
    (by decide) h
  refine ⟨rfl, rfl, rfl, ?_, rfl, List.sorted_insertionSort projDescR _,
    fun p => List.mem_insertionSort projDescR, rfl, List.sorted_insertionSort taskDescR _,
    fun t => List.mem_insertionSort taskDescR⟩
  simp only [dashboard_stats, countStatus] at *
  omega

/-- Witness for C5 at the example tenant whose single assigned task is todo:
the three reported counts plus the review count give the assigned total. -/
theorem C5_dashboard_stats_spec_witness :
    (dashboard_stats c5wtd 1).my_todo + (dashboard_stats c5wtd 1).my_in_progress +
        (dashboard_stats c5wtd 1).my_done + countStatus (myAssignedTasks c5wtd 1) "review"
      = (dashboard_stats c5wtd 1).my_total :=
  (C5_dashboard_stats_spec c5wtd 1 (by decide)).2.2.2.1

/-- C1: company registration is all-or-nothing: when the request does not
end in a created result, the company table, domain table and schema map are
exactly as before; when it ends created, the Company row (schema lowercased),
its primary Domain row and the superuser admin identity inside the new
schema are all present. -/
theorem C1_company_registration_atomic (s : DBState) (inp : RegInput) (cid did uid : Nat) :
    ((register_company s inp cid did uid).1 ≠ .created →
        (register_company s inp cid did uid).2.companies = s.companies ∧
        (register_company s inp cid did uid).2.domains = s.domains ∧
        (register_company s inp cid did uid).2.tenants = s.tenants) ∧
    ((register_company s inp cid did uid).1 = .created →
        (∃ c ∈ (register_company s inp cid did uid).2.companies,
            c = ⟨cid, inp.company_name, pyLower inp.schema_name, inp.subscription_plan, true⟩) ∧
        (∃ d ∈ (register_company s inp cid did uid).2.domains,
            d.tenantId = cid ∧ d.is_primary = true ∧ d.domain = pyLower inp.domain_url) ∧
        (∃ td, tenantOf (register_company s inp cid did uid).2 (pyLower inp.schema_name)
              = some td ∧
            ∃ usr ∈ td.users, usr.id = uid ∧ usr.username = inp.admin_username ∧
              usr.is_staff = true ∧ usr.is_superuser = true)) := by
  constructor
  · exact register_company_not_created s inp cid did uid
  · intro hc
    obtain ⟨hcs, hds, ⟨td, htd, hmem⟩, _, _⟩ := register_company_created s inp cid did uid hc
    refine ⟨⟨⟨cid, inp.company_name, pyLower inp.schema_name, inp.subscription_plan, true⟩,
        ?_, rfl⟩,
      ⟨⟨did, pyLower inp.domain_url, cid, true⟩, ?_, rfl, rfl, rfl⟩,
      td, htd, _, hmem, rfl, rfl, rfl, rfl⟩
    · rw [hcs]
      exact List.mem_append_right _ (List.mem_singleton.mpr rfl)
    · rw [hds]
      exact List.mem_append_right _ (List.mem_singleton.mpr rfl)

/-- Witness for C1: the example registration on an empty database ends
created with all three rows present. -/
theorem C1_company_registration_atomic_witness :
    ∃ td, tenantOf (register_company regS0 regInp0 1 1 1).2 (pyLower regInp0.schema_name)
        = some td ∧
      ∃ usr ∈ td.users, usr.id = 1 ∧ usr.username = regInp0.admin_username ∧
        usr.is_staff = true ∧ usr.is_superuser = true :=
  ((C1_company_registration_atomic regS0 regInp0 1 1 1).2 (by decide)).2.2

/-- C3: a schema identifier containing any character that is neither
alphanumeric nor an underscore (a hyphen in particular) is rejected with a
validation error and no state change; a created registration stores the
lowercased schema identifier and domain; and a registration whose lowercased
schema identifier or lowercased domain collides with an existing row cannot
end created and leaves every table as it was, so only the first company's
records persist. -/
theorem C3_schema_domain_validation (s : DBState) (inp : RegInput) (cid did uid : Nat) :
    ((∃ ch ∈ inp.schema_name.data, ¬ ch.isAlphanum = true ∧ ch ≠ '_') →
        register_company s inp cid did uid = (.validationError, s)) ∧
    ((register_company s inp cid did uid).1 = .created →
        (∃ c ∈ (register_company s inp cid did uid).2.companies,
            c.schema_name = pyLower inp.schema_name) ∧
        (∃ d ∈ (register_company s inp cid did uid).2.domains,
            d.domain = pyLower inp.domain_url)) ∧
    ((∃ c ∈ s.companies, c.schema_name = pyLower inp.schema_name) →
        (register_company s inp cid did uid).1 ≠ .created ∧
        (register_company s inp cid did uid).2.companies = s.companies ∧
        (register_company s inp cid did uid).2.domains = s.domains ∧
        (register_company s inp cid did uid).2.tenants = s.tenants) ∧
    ((∃ d ∈ s.domains, d.domain = pyLower inp.domain_url) →
        (register_company s inp cid did uid).1 ≠ .created ∧
        (register_company s inp cid did uid).2.companies = s.companies ∧
        (register_company s inp cid did uid).2.domains = s.domains ∧
        (register_company s inp cid did uid).2.tenants = s.tenants) := by
  refine ⟨?_, ?_, ?_, ?_⟩
  · rintro ⟨ch, hmem, hna, hnu⟩
    have hmem2 : ch ∈ inp.schema_name.data.filter (fun c => c ≠ '_') :=
      List.mem_filter.mpr ⟨hmem, by simpa using hnu⟩
    have hall : (inp.schema_name.data.filter (fun c => c ≠ '_')).all Char.isAlphanum
        = false := by
      cases hall : (inp.schema_name.data.filter (fun c => c ≠ '_')).all Char.isAlphanum with
      | true => exact absurd (List.all_eq_true.mp hall ch hmem2) (by simpa using hna)
      | false => rfl
    have hbad : pyIsAlnum (stripUnderscores inp.schema_name) = false := by
      unfold pyIsAlnum stripUnderscores
      rw [hall, Bool.and_false]
    have herr : ∃ e, validate_schema_name s inp.schema_name = .error e := by
      by_cases h1 : (s.companies.any fun c => c.schema_name == inp.schema_name) = true
      · exact ⟨"This schema name is already taken.", by simp [validate_schema_name, h1]⟩
      · exact ⟨"Schema name must contain only alphanumeric characters and underscores.",
          by simp [validate_schema_name, h1, hbad]⟩
    obtain ⟨e, he⟩ := herr
    simp [register_company, he]
  · intro hc
    obtain ⟨hcs, hds, _, _, _⟩ := register_company_created s inp cid did uid hc
    constructor
    · refine ⟨⟨cid, inp.company_name, pyLower inp.schema_name, inp.subscription_plan, true⟩,
        ?_, rfl⟩
      rw [hcs]
      exact List.mem_append_right _ (List.mem_singleton.mpr rfl)
    · refine ⟨⟨did, pyLower inp.domain_url, cid, true⟩, ?_, rfl⟩
      rw [hds]
      exact List.mem_append_right _ (List.mem_singleton.mpr rfl)
  · rintro ⟨c, hcmem, hcn⟩
    have hnc : (register_company s inp cid did uid).1 ≠ .created := fun hc =>
      (register_company_created s inp cid did uid hc).2.2.2.1 c hcmem hcn
    exact ⟨hnc, register_company_not_created s inp cid did uid hnc⟩
  · rintro ⟨d, hdmem, hdn⟩
    have hnc : (register_company s inp cid did uid).1 ≠ .created := fun hc =>
      (register_company_created s inp cid did uid hc).2.2.2.2 d hdmem hdn
    exact ⟨hnc, register_company_not_created s inp cid did uid hnc⟩

/-- Witness for C3: the hyphenated schema identifier is rejected without
state change, and a case-variant re-registration of the schema acme cannot
end created. -/
theorem C3_schema_domain_validation_witness :
    register_company regS0 regInpHyphen 1 1 1 = (.validationError, regS0) ∧
    (register_company regS1 regInpCase 2 2 2).1 ≠ .created :=
  ⟨(C3_schema_domain_validation regS0 regInpHyphen 1 1 1).1
      ⟨'-', by decide, by decide, by decide⟩,
   ((C3_schema_domain_validation regS1 regInpCase 2 2 2).2.2.1
      ⟨⟨1, "Acme", "acme", "free", true⟩, by decide, by decide⟩).1⟩

end SaaS
